import Mathlib

/-!
Verification development for the `mcp_bridge` HTTP tool bridge
(`src/mcp_bridge.py`).

The Python source is shallowly embedded as follows.

* JSON values (the payloads of `request.json`) are the inductive type `JVal`.
* Python truthiness (`if not x`) is the boolean predicate `falsy`.
* The external collaborators are a record `Env`:
  - `fs` models `open(path).read()` together with the UTF-8 / latin-1 decode
    fallback: it yields either the decoded text or the exception text `str(e)`;
  - `run` models `subprocess.run(curl ...)` keyed by the prompt embedded in
    the curl command's JSON payload;
  - `loads` models `json.loads` on one line of backend output (`none` models
    a `json.JSONDecodeError`);
  - `glob` models `glob.glob(search_path, recursive=True)` (`Except.error`
    models a raised exception, carrying `str(e)`);
  - `resolve` models `str(Path(f).resolve())`.
* Each Flask view function becomes a Lean function from the request data to
  `HttpResp × List Event`, where the event list records, in order, the
  collaborator invocations the handler performed.
* Raised Python exceptions are `Except.error` values carrying `str(e)`.
  Exception message texts follow CPython 3.10; where a message is irrelevant
  to every claim it is still modelled with the CPython wording.
-/

/-- A JSON value, as produced by `request.json` / `json.loads`. -/
inductive JVal where
  | null
  | bool (b : Bool)
  | num (n : Int)
  | str (s : String)
  | arr (l : List JVal)
  | obj (l : List (String × JVal))

/-- Python truthiness on JSON values: `not x` is true exactly on these. -/
def falsy : JVal → Bool
  | JVal.null => true
  | JVal.bool b => !b
  | JVal.num n => n == 0
  | JVal.str s => s == ""
  | JVal.arr l => l.isEmpty
  | JVal.obj l => l.isEmpty

/-- The single-quote character, used when rendering Python `repr` texts. -/
def squo : String := String.singleton (Char.ofNat 39)

/-- Python type name of a JSON value, as it appears in exception messages. -/
def pyTypeName : JVal → String
  | JVal.null => "NoneType"
  | JVal.bool _ => "bool"
  | JVal.num _ => "int"
  | JVal.str _ => "str"
  | JVal.arr _ => "list"
  | JVal.obj _ => "dict"

mutual

/-- Python `repr` of a JSON value (string escaping inside `repr` of `str`
is not modelled; no claim exercises it). -/
def pyRepr : JVal → String
  | JVal.null => "None"
  | JVal.bool true => "True"
  | JVal.bool false => "False"
  | JVal.num n => toString n
  | JVal.str s => squo ++ s ++ squo
  | JVal.arr l => "[" ++ pyReprItems l ++ "]"
  | JVal.obj l => "\x7b" ++ pyReprFields l ++ "\x7d"

/-- Comma-separated `repr`s of list items. -/
def pyReprItems : List JVal → String
  | [] => ""
  | [v] => pyRepr v
  | v :: vs => pyRepr v ++ ", " ++ pyReprItems vs

/-- Comma-separated `repr`s of dict entries. -/
def pyReprFields : List (String × JVal) → String
  | [] => ""
  | [(k, v)] => squo ++ k ++ squo ++ ": " ++ pyRepr v
  | (k, v) :: kvs => squo ++ k ++ squo ++ ": " ++ pyRepr v ++ ", " ++ pyReprFields kvs

end

/-- Python `str()` of a JSON value, as interpolated by an f-string. -/
def pyStr : JVal → String
  | JVal.str s => s
  | v => pyRepr v

/-- Python whitespace (the characters matched by `\s` on `str` and stripped
by `str.strip()`): ASCII and Latin-1 whitespace plus the Unicode space
separators. -/
def wsChars : List Char :=
  [' ', '\t', '\n', '\r', '\x0b', '\x0c',
   '\x1c', '\x1d', '\x1e', '\x1f', '\x85', '\xa0',
   ' ', ' ', ' ', ' ', ' ', ' ', ' ',
   ' ', ' ', ' ', ' ', ' ', ' ', ' ',
   ' ', ' ', '　']

/-- Whether a character is Python whitespace. -/
def isWs (c : Char) : Bool := wsChars.contains c

/-- Python `str.strip()`. -/
def pyStrip (s : String) : String :=
  String.mk (((s.data.dropWhile isWs).reverse.dropWhile isWs).reverse)

/-- Python `str.split` with separator `'\n'`: splits at every newline and
keeps empty pieces (so the empty string yields one empty piece). -/
def splitNl : List Char → List (List Char)
  | [] => [[]]
  | '\n' :: t => [] :: splitNl t
  | c :: t =>
    match splitNl t with
    | h :: r => (c :: h) :: r
    | [] => [[c]]

/-- Whether a character list begins with three hyphens (the literal `---` of
the frontmatter regex). -/
def startsTriple (l : List Char) : Bool := decide (l.take 3 = ['-', '-', '-'])

/-- Scan for the first occurrence of `---` and return the remainder after
it; this is how the lazy `[\s\S]*?---` part of the regex
`^---\s*[\s\S]*?---\s*` resolves (leftmost closing delimiter). -/
def splitTriple : List Char → Option (List Char)
  | [] => none
  | c :: t => if startsTriple (c :: t) then some (t.drop 2) else splitTriple t

/-- Whether `---` occurs anywhere in a character list. -/
def hasTriple : List Char → Bool
  | [] => false
  | c :: t => startsTriple (c :: t) || hasTriple t

/-- `re.sub(r'^---\s*[\s\S]*?---\s*', '', file_content)` from
`read_file_content`.  Without `re.MULTILINE` the anchor `^` only matches at
position 0, so at most one replacement happens: the leading `---`, then the
maximal whitespace run, then the shortest span up to the next `---`, then
the maximal whitespace run after it, are deleted.  (The greedy `\s*` cannot
steal characters from a later viable match because `-` is not whitespace, so
the match is exactly: maximal whitespace after the opening `---`, then
everything up to and including the first subsequent `---`, then maximal
whitespace.) -/
def stripFrontmatter (s : String) : String :=
  if startsTriple s.data then
    match splitTriple ((s.data.drop 3).dropWhile isWs) with
    | some rest => String.mk (rest.dropWhile isWs)
    | none => s
  else s

/-- A declared parameter: its JSON-schema `type` and `description`. -/
structure ParamSpec where
  type : String
  description : String
deriving DecidableEq

/-- The `parameters` object of a tool schema. -/
structure ToolParameters where
  type : String
  properties : List (String × ParamSpec)
  required : List String
deriving DecidableEq

/-- One entry of `TOOL_SCHEMAS`. -/
structure ToolSchema where
  name : String
  description : String
  parameters : ToolParameters
deriving DecidableEq

/-- The `analyze_file` schema literal from the source. -/
def analyze_file_schema : ToolSchema :=
  ⟨"analyze_file",
   "Analyze a file with Ollama AI and get insights based on a user query",
   ⟨"object",
    [("file_path", ⟨"string", "Path to the file to analyze"⟩),
     ("query", ⟨"string", "The question or task to perform on the file content"⟩)],
    ["file_path", "query"]⟩⟩

/-- The `discover_files` schema literal from the source. -/
def discover_files_schema : ToolSchema :=
  ⟨"discover_files",
   "Find files in a directory matching a pattern",
   ⟨"object",
    [("directory", ⟨"string", "Directory to search in"⟩),
     ("pattern", ⟨"string", "File pattern to match (e.g., "
        ++ squo ++ "*.md" ++ squo ++ ", " ++ squo ++ "*.py" ++ squo ++ ")"⟩)],
    ["directory", "pattern"]⟩⟩

/-- The module-level registry `TOOL_SCHEMAS`, in source order.  It is a
module constant: nothing in the source mutates it after definition. -/
def TOOL_SCHEMAS : List (String × ToolSchema) :=
  [("analyze_file", analyze_file_schema),
   ("discover_files", discover_files_schema)]

/-- Outcome of `subprocess.run(curl_command, capture_output=True, text=True)`. -/
structure SubprocResult where
  returncode : Int
  stdout : String
  stderr : String

/-- Whether the substring `response` occurs in a character list (Python
`"response" in s` for a string `s`). -/
def containsResponse : List Char → Bool
  | 'r' :: 'e' :: 's' :: 'p' :: 'o' :: 'n' :: 's' :: 'e' :: _ => true
  | _ :: t => containsResponse t
  | [] => false

/-- Whether a JSON value is the Python string `"response"` (used by `in` on
a list). -/
def isRespStr : JVal → Bool
  | JVal.str s => s == "response"
  | _ => false

/-- `str(e)` for the TypeError raised by `full_response += v` with `v` not a
string. -/
def concatTypeErrMsg (v : JVal) : String :=
  "can only concatenate str (not \"" ++ pyTypeName v ++ "\") to str"

/-- `str(e)` for the TypeError raised by indexing a string with a string. -/
def strIndexMsg : String := "string indices must be integers"

/-- `str(e)` for the TypeError raised by indexing a list with a string. -/
def listIndexMsg : String := "list indices must be integers or slices, not str"

/-- `str(e)` for the TypeError raised by `"response" in v` with a
non-container `v`. -/
def notIterableMsg (v : JVal) : String :=
  "argument of type " ++ squo ++ pyTypeName v ++ squo ++ " is not iterable"

/-- One loop iteration of `call_ollama_api` after `json.loads` succeeded on
a line: `if "response" in response_obj: full_response += response_obj["response"]`.
`Except.error` carries `str(e)` of the raised TypeError. -/
def lineValue (acc : String) (v : JVal) : Except String String :=
  match v with
  | JVal.obj l =>
    match l.lookup ("response") with
    | some (JVal.str s) => Except.ok (acc ++ s)
    | some w => Except.error (concatTypeErrMsg w)
    | none => Except.ok acc
  | JVal.str s =>
    if containsResponse s.data then Except.error strIndexMsg else Except.ok acc
  | JVal.arr l =>
    if l.any isRespStr then Except.error listIndexMsg else Except.ok acc
  | v => Except.error (notIterableMsg v)

/-- The response-collection loop of `call_ollama_api` over the split lines:
a `json.JSONDecodeError` (modelled by `loads line = none`) is skipped with
`continue`; any other exception propagates. -/
def collectResponses (loads : String → Option JVal) :
    List String → String → Except String String
  | [], acc => Except.ok acc
  | line :: rest, acc =>
    match loads line with
    | none => collectResponses loads rest acc
    | some v =>
      match lineValue acc v with
      | Except.ok acc2 => collectResponses loads rest acc2
      | Except.error e => Except.error e

/-- `call_ollama_api` from the source: on nonzero exit it returns the
failure string; otherwise it strips and splits the captured stdout on
newlines and concatenates the `"response"` fields of the lines that parse.
`Except.error` models an exception escaping the function. -/
def call_ollama_api (run : String → SubprocResult) (loads : String → Option JVal)
    (prompt : String) : Except String String :=
  let result := run prompt
  if result.returncode != 0 then
    Except.ok ("Failed to call Ollama API: " ++ result.stderr)
  else
    collectResponses loads ((splitNl (pyStrip result.stdout).data).map String.mk) ""

/-- `read_file_content` from the source.  `fs` is the collaborator carrying
out `open(...).read()` with the decode fallback; `Except.error e` models any
exception (carrying `str(e)`), which the function converts into the
diagnostic string.  The function itself never raises. -/
def read_file_content (fs : JVal → Except String String) (file_path : JVal) : String :=
  if falsy file_path then
    "No file was provided. Please specify a file_path in your request to analyze specific content."
  else
    match fs file_path with
    | Except.ok file_content => stripFrontmatter file_content
    | Except.error e => "Failed to read file: " ++ e

/-- The fixed prompt template shared by all three routes. -/
def mkPrompt (file_content query : String) : String :=
  "Here is the content from a file:\n\n" ++ file_content
    ++ "\n\nUser query: " ++ query
    ++ "\n\nPlease respond to the user query based on the file content."

/-- POSIX `os.path.join` on two components (the source always joins string
components). -/
def pathJoin2 (a b : String) : String :=
  if b.startsWith ("/") then b
  else if a == "" || a.endsWith ("/") then a ++ b
  else a ++ "/" ++ b

/-- `os.path.join(directory, "**", pattern)` from both discover branches. -/
def searchPath (dir pat : String) : String := pathJoin2 (pathJoin2 dir ("**")) pat

/-- `str(e)` for the TypeError raised by `os.path.join` on a non-path
component: the message names the first offending component's type. -/
def joinTypeErrMsg (a b : JVal) : String :=
  "expected str, bytes or os.PathLike object, not "
    ++ pyTypeName (match a with | JVal.str _ => b | _ => a)

/-- A collaborator invocation performed while handling one request. -/
inductive Event where
  | evRead (file_path : JVal)
  | evOllama (prompt : String)
  | evGlob (search_path : String)

/-- The external collaborators of the bridge (see the module docstring). -/
structure Env where
  fs : JVal → Except String String
  run : String → SubprocResult
  loads : String → Option JVal
  glob : String → Except String (List String)
  resolve : String → String

/-- An HTTP response: the status code and the JSON object body, with the
keys in the order the source builds them. -/
structure HttpResp where
  status : Nat
  body : List (String × JVal)

/-- `dict.get(k)` (given the dict entries). -/
def jget (d : List (String × JVal)) (k : String) : JVal :=
  match d.lookup k with
  | some v => v
  | none => JVal.null

/-- `dict.get(k, dflt)`. -/
def jgetD (d : List (String × JVal)) (k : String) (dflt : JVal) : JVal :=
  match d.lookup k with
  | some v => v
  | none => dflt

/-- `str(e)` of the AttributeError raised by `v.get(...)` on a non-dict `v`. -/
def noGetMsg (v : JVal) : String :=
  squo ++ pyTypeName v ++ squo ++ " object has no attribute " ++ squo ++ "get" ++ squo

/-- The legacy view `mcp_query`: `data` is `request.json`.  Every outcome is
reported with HTTP status 200; an exception is embedded in the body. -/
def mcp_query (env : Env) (data : JVal) : HttpResp × List Event :=
  match data with
  | JVal.obj d =>
    let prompt := jgetD d ("prompt") (JVal.str "")
    let file_path := jgetD d ("file_path") (JVal.str "")
    let file_content := read_file_content env.fs file_path
    let combined_prompt := mkPrompt file_content (pyStr prompt)
    match call_ollama_api env.run env.loads combined_prompt with
    | Except.ok full_response =>
      (⟨200, [("answer", JVal.str full_response)]⟩,
       [Event.evRead file_path, Event.evOllama combined_prompt])
    | Except.error e =>
      (⟨200, [("error", JVal.str ("Exception processing request: " ++ e))]⟩,
       [Event.evRead file_path, Event.evOllama combined_prompt])
  | _ =>
    (⟨200, [("error", JVal.str ("Exception processing request: " ++ noGetMsg data))]⟩, [])

/-- The generic view `execute_tool` for `POST /mcp/tools/<tool_name>`:
`data` is `request.json`.  The final catch-all arm is unreachable while the
registry holds exactly `analyze_file` and `discover_files`; reaching it in
Python would make the view return `None`, which Flask reports as a 500 with
no JSON body, modelled here by an empty body. -/
def execute_tool (env : Env) (tool_name : String) (data : JVal) :
    HttpResp × List Event :=
  if (TOOL_SCHEMAS.lookup tool_name).isNone then
    (⟨404, [("error", JVal.str ("Tool " ++ squo ++ tool_name ++ squo ++ " not found"))]⟩, [])
  else if tool_name == "analyze_file" then
    match data with
    | JVal.obj d =>
      let file_path := jget d ("file_path")
      let query := jget d ("query")
      if falsy file_path || falsy query then
        (⟨400, [("error", JVal.str "Missing required parameters")]⟩, [])
      else
        let file_content := read_file_content env.fs file_path
        let combined_prompt := mkPrompt file_content (pyStr query)
        match call_ollama_api env.run env.loads combined_prompt with
        | Except.ok response =>
          (⟨200, [("result", JVal.str response)]⟩,
           [Event.evRead file_path, Event.evOllama combined_prompt])
        | Except.error e =>
          (⟨500, [("error", JVal.str ("Error executing tool: " ++ e))]⟩,
           [Event.evRead file_path, Event.evOllama combined_prompt])
    | _ =>
      (⟨500, [("error", JVal.str ("Error executing tool: " ++ noGetMsg data))]⟩, [])
  else if tool_name == "discover_files" then
    match data with
    | JVal.obj d =>
      let directory := jget d ("directory")
      let pattern := jget d ("pattern")
      if falsy directory || falsy pattern then
        (⟨400, [("error", JVal.str "Missing required parameters")]⟩, [])
      else
        match directory, pattern with
        | JVal.str dir, JVal.str pat =>
          let search_path := searchPath dir pat
          match env.glob search_path with
          | Except.ok matching_files =>
            (⟨200, [("files", JVal.arr (matching_files.map JVal.str))]⟩,
             [Event.evGlob search_path])
          | Except.error e =>
            (⟨500, [("error", JVal.str ("Error executing tool: " ++ e))]⟩,
             [Event.evGlob search_path])
        | dv, pv =>
          (⟨500, [("error", JVal.str ("Error executing tool: " ++ joinTypeErrMsg dv pv))]⟩, [])
    | _ =>
      (⟨500, [("error", JVal.str ("Error executing tool: " ++ noGetMsg data))]⟩, [])
  else
    (⟨500, []⟩, [])

/-- `str(e)` of the TypeError raised by `v not in TOOL_SCHEMAS` when `v` is
an unhashable value (a list or a dict). -/
def unhashableMsg (v : JVal) : String :=
  "unhashable type: " ++ squo ++ pyTypeName v ++ squo

/-- A 500 response of `mcp_execute`'s top-level exception handler; note the
source draws a fresh `uuid.uuid4()` there (modelled by the parameter
`eid2`), not the `execution_id` assigned earlier in the body. -/
def excResp (e eid2 : String) : HttpResp × List Event :=
  (⟨500, [("error", JVal.str ("Exception processing request: " ++ e)),
          ("execution_id", JVal.str eid2)]⟩, [])

/-- The MCP view `mcp_execute` for `POST /mcp/execute`: `data` is
`request.json`, `eid` is the `str(uuid.uuid4())` drawn at line 161, and
`eid2` is the one the top-level `except` arm would draw at line 219.  A
list or dict `name` makes the registry membership test raise (unhashable
key), which the top-level handler turns into a 500; other non-string names
are hashable, miss the registry and draw the 404.  The catch-all arm
mirroring a registered tool that is neither `analyze_file` nor
`discover_files` is unreachable (the view would return `None`); it is
modelled by an empty 500 body. -/
def mcp_execute (env : Env) (eid eid2 : String) (data : JVal) :
    HttpResp × List Event :=
  match data with
  | JVal.obj d =>
    let name := jget d ("name")
    let arguments := jgetD d ("arguments") (JVal.obj [])
    match name with
    | JVal.str tool_name =>
      if (TOOL_SCHEMAS.lookup tool_name).isNone then
        (⟨404, [("error", JVal.str ("Unknown tool: " ++ tool_name)),
                ("execution_id", JVal.str eid)]⟩, [])
      else if tool_name == "analyze_file" then
        match arguments with
        | JVal.obj a =>
          let file_path := jget a ("file_path")
          let query := jget a ("query")
          if falsy file_path || falsy query then
            (⟨400, [("error", JVal.str "Missing required parameters: file_path and query"),
                    ("execution_id", JVal.str eid)]⟩, [])
          else
            let file_content := read_file_content env.fs file_path
            let combined_prompt := mkPrompt file_content (pyStr query)
            match call_ollama_api env.run env.loads combined_prompt with
            | Except.ok response =>
              (⟨200, [("execution_id", JVal.str eid), ("result", JVal.str response)]⟩,
               [Event.evRead file_path, Event.evOllama combined_prompt])
            | Except.error e =>
              (⟨500, [("error", JVal.str ("Exception processing request: " ++ e)),
                      ("execution_id", JVal.str eid2)]⟩,
               [Event.evRead file_path, Event.evOllama combined_prompt])
        | v => excResp (noGetMsg v) eid2
      else if tool_name == "discover_files" then
        match arguments with
        | JVal.obj a =>
          let directory := jget a ("directory")
          let pattern := jget a ("pattern")
          if falsy directory || falsy pattern then
            (⟨400, [("error", JVal.str "Missing required parameters: directory and pattern"),
                    ("execution_id", JVal.str eid)]⟩, [])
          else
            match directory, pattern with
            | JVal.str dir, JVal.str pat =>
              let search_path := searchPath dir pat
              match env.glob search_path with
              | Except.ok files =>
                let resolved := files.map env.resolve
                (⟨200, [("execution_id", JVal.str eid),
                        ("result", JVal.obj
                          [("files", JVal.arr (resolved.map JVal.str)),
                           ("count", JVal.num resolved.length)])]⟩,
                 [Event.evGlob search_path])
              | Except.error e =>
                (⟨500, [("error", JVal.str ("Error discovering files: " ++ e)),
                        ("execution_id", JVal.str eid)]⟩,
                 [Event.evGlob search_path])
            | dv, pv =>
              (⟨500, [("error", JVal.str ("Error discovering files: " ++ joinTypeErrMsg dv pv)),
                      ("execution_id", JVal.str eid)]⟩, [])
        | v => excResp (noGetMsg v) eid2
      else
        (⟨500, []⟩, [])
    | JVal.arr l2 => excResp (unhashableMsg (JVal.arr l2)) eid2
    | JVal.obj o2 => excResp (unhashableMsg (JVal.obj o2)) eid2
    | v =>
      (⟨404, [("error", JVal.str ("Unknown tool: " ++ pyStr v)),
              ("execution_id", JVal.str eid)]⟩, [])
  | _ => excResp (noGetMsg data) eid2

/-- A required parameter `r` is absent from the argument object or bound to
the empty string. -/
def missingOrEmpty (d : List (String × JVal)) (r : String) : Prop :=
  d.lookup r = none ∨ d.lookup r = some (JVal.str "")

/-- A fixed benign environment used to instantiate witnesses. -/
def env0 : Env :=
  ⟨fun _ => Except.error ("[Errno 2] No such file or directory"),
   fun _ => ⟨0, "", ""⟩,
   fun _ => none,
   fun _ => Except.ok [],
   id⟩

/-- A backend stdout line that parses to a JSON object whose `response`
field is the number 0 (valid JSON, hostile to `full_response += ...`). -/
def badLine : String := "\x7b\"response\": 0\x7d"

/-- A `json.loads` model agreeing with Python on the inputs it is applied
to: `badLine` parses to its object, anything else is a decode error. -/
def loadsBad : String → Option JVal := fun line =>
  if line = badLine then some (JVal.obj [("response", JVal.num 0)]) else none

/-- An environment whose backend emits `badLine`, making
`call_ollama_api` raise a TypeError. -/
def envBad : Env :=
  ⟨fun _ => Except.ok "content",
   fun _ => ⟨0, badLine, ""⟩,
   loadsBad,
   fun _ => Except.ok [],
   id⟩

/-- A protocol-compliant `analyze_file` request with both required
arguments present. -/
def dataBad : JVal :=
  JVal.obj [("name", JVal.str "analyze_file"),
            ("arguments", JVal.obj [("file_path", JVal.str "f.md"),
                                    ("query", JVal.str "q")])]

/-- The contribution of one backend output line to the concatenated answer:
the string bound to `response` when the line parses to an object carrying
one, empty otherwise. -/
def respOf (loads : String → Option JVal) (line : String) : String :=
  match loads line with
  | some (JVal.obj l) =>
    match l.lookup ("response") with
    | some (JVal.str s) => s
    | _ => ""
  | _ => ""

/-- A backend output line that `call_ollama_api` handles without raising:
it fails to parse, or parses to a JSON object whose `response` field (if
present) is a string — the shape of a genuine Ollama stream line. -/
def lineOk (loads : String → Option JVal) (line : String) : Prop :=
  match loads line with
  | none => True
  | some (JVal.obj l) =>
    match l.lookup ("response") with
    | none => True
    | some (JVal.str _) => True
    | some _ => False
  | some _ => False

/-- A file system whose every read yields the text `---a---b`, where the
hyphen runs are not on lines of their own. -/
def fsC7 : JVal → Except String String := fun _ => Except.ok "---a---b"

/-- A file system whose every read yields a conventional frontmatter
document. -/
def fsC7w : JVal → Except String String :=
  fun _ => Except.ok "---\ntitle: x\n---\nbody"

/-- An environment whose glob collaborator raises, exercising the inner
`except` of the discover branch (source line 213). -/
def envGlobErr : Env :=
  ⟨fun _ => Except.error ("x"),
   fun _ => ⟨0, "", ""⟩,
   fun _ => none,
   fun _ => Except.error ("glob boom"),
   id⟩

/-- A tool name with a registry entry is one of the two registered names,
and its schema is the corresponding literal. -/
theorem lookup_TOOL_SCHEMAS (s : String) (sch : ToolSchema)
    (h : TOOL_SCHEMAS.lookup s = some sch) :
    (s = "analyze_file" ∧ sch = analyze_file_schema) ∨
      (s = "discover_files" ∧ sch = discover_files_schema) := by
  by_cases h1 : s = "analyze_file"
  · subst h1
    refine Or.inl ⟨rfl, ?_⟩
    have h2 : TOOL_SCHEMAS.lookup ("analyze_file") = some analyze_file_schema := rfl
    rw [h2] at h
    exact (Option.some.inj h).symm
  · by_cases h2 : s = "discover_files"
    · subst h2
      refine Or.inr ⟨rfl, ?_⟩
      have h3 : TOOL_SCHEMAS.lookup ("discover_files") = some discover_files_schema := rfl
      rw [h3] at h
      exact (Option.some.inj h).symm
    · exfalso
      have hb1 : (s == "analyze_file") = false := beq_eq_false_iff_ne.mpr h1
      have hb2 : (s == "discover_files") = false := beq_eq_false_iff_ne.mpr h2
      simp [TOOL_SCHEMAS, List.lookup, hb1, hb2] at h

/-- A tool name whose lookup is not `none` is one of the two registered
names. -/
theorem registered_cases (s : String)
    (h : (TOOL_SCHEMAS.lookup s).isNone = false) :
    s = "analyze_file" ∨ s = "discover_files" := by
  by_cases h1 : s = "analyze_file"
  · exact Or.inl h1
  · by_cases h2 : s = "discover_files"
    · exact Or.inr h2
    · exfalso
      have hb1 : (s == "analyze_file") = false := beq_eq_false_iff_ne.mpr h1
      have hb2 : (s == "discover_files") = false := beq_eq_false_iff_ne.mpr h2
      simp [TOOL_SCHEMAS, List.lookup, hb1, hb2] at h

/-- `dropWhile` keeps a list whose head is not whitespace. -/
theorem dropWhile_isWs_eq_self (l : List Char)
    (h : ∀ c, l.head? = some c → isWs c = false) :
    l.dropWhile isWs = l := by
  cases l with
  | nil => rfl
  | cons c t => simp [List.dropWhile_cons, h c rfl]

/-- `dropWhile isWs` distributes over an append whose right part begins
with a hyphen. -/
theorem dropWhile_append_dash (a r : List Char) :
    (a ++ '-' :: r).dropWhile isWs = a.dropWhile isWs ++ '-' :: r := by
  induction a with
  | nil =>
    rw [List.nil_append, List.dropWhile_cons]
    rw [show isWs '-' = false from by decide]
    simp
  | cons c t ih =>
    by_cases hc : isWs c
    · simpa [List.dropWhile_cons, hc] using ih
    · simp [List.dropWhile_cons, hc]

/-- `startsTriple` on a cons only looks at the first three characters, so
the closing `---` lookahead can be truncated to two hyphens. -/
theorem startsTriple_stable (x : Char) (a b : List Char) :
    startsTriple (x :: (a ++ '-' :: '-' :: '-' :: b)) =
      startsTriple (x :: (a ++ ['-', '-'])) := by
  cases a with
  | nil => rfl
  | cons y a' =>
    cases a' with
    | nil => rfl
    | cons z a'' => rfl

/-- Scanning for `---` across a hyphen-free prefix finds the explicit `---`
that follows it. -/
theorem splitTriple_append (a b : List Char)
    (h : hasTriple (a ++ ['-', '-']) = false) :
    splitTriple (a ++ '-' :: '-' :: '-' :: b) = some b := by
  induction a with
  | nil => rfl
  | cons x a' ih =>
    rw [List.cons_append, splitTriple, startsTriple_stable]
    have h' : (startsTriple (x :: (a' ++ ['-', '-']))
        || hasTriple (a' ++ ['-', '-'])) = false := h
    rw [Bool.or_eq_false_iff] at h'
    rw [h'.1]
    simpa using ih h'.2

/-- A list without `---` has no split point. -/
theorem splitTriple_none (l : List Char) (h : hasTriple l = false) :
    splitTriple l = none := by
  induction l with
  | nil => rfl
  | cons c t ih =>
    have h' : (startsTriple (c :: t) || hasTriple t) = false := h
    rw [Bool.or_eq_false_iff] at h'
    rw [splitTriple, h'.1]
    simpa using ih h'.2

/-- `hasTriple` is monotone under removing a prefix. -/
theorem hasTriple_suffix (l₁ l₂ : List Char) (hs : l₁ <:+ l₂)
    (h : hasTriple l₂ = false) : hasTriple l₁ = false := by
  obtain ⟨u, rfl⟩ := hs
  induction u with
  | nil => exact h
  | cons x u' ih =>
    have h' : (startsTriple (x :: (u' ++ l₁)) || hasTriple (u' ++ l₁)) = false := h
    rw [Bool.or_eq_false_iff] at h'
    exact ih h'.2

/-- Appending a newline and two hyphens to a `---`-free list keeps it
`---`-free (the newline blocks any straddling match). -/
theorem hasTriple_append_closer (a : List Char) (h : hasTriple a = false) :
    hasTriple (a ++ ['\n', '-', '-']) = false := by
  induction a with
  | nil => decide
  | cons x a' ih =>
    have h' : (startsTriple (x :: a') || hasTriple a') = false := h
    rw [Bool.or_eq_false_iff] at h'
    rw [List.cons_append, hasTriple, Bool.or_eq_false_iff]
    refine ⟨?_, ih h'.2⟩
    cases a' with
    | nil =>
      rw [startsTriple, decide_eq_false_iff_not]
      intro heq
      simp at heq
    | cons y a'' =>
      cases a'' with
      | nil =>
        rw [startsTriple, decide_eq_false_iff_not]
        intro heq
        simp at heq
      | cons z a''' =>
        have e1 : startsTriple (x :: ((y :: z :: a''') ++ ['\n', '-', '-']))
            = decide ([x, y, z] = ['-', '-', '-']) := rfl
        have e2 : startsTriple (x :: y :: z :: a''')
            = decide ([x, y, z] = ['-', '-', '-']) := rfl
        rw [e1, ← e2]
        exact h'.1

/-- An absent-or-empty required parameter reads back as a falsy value. -/
theorem falsy_jget_of_missingOrEmpty (d : List (String × JVal)) (r : String)
    (h : missingOrEmpty d r) : falsy (jget d r) = true := by
  rcases h with h | h <;> simp [jget, h, falsy]

/-- C9: every schema in the registry lists as `required` only names that
appear among its declared `properties`; the registry is a process-wide
constant built at startup (modelled as an immutable definition). -/
theorem c9_required_subset_of_properties (p : String × ToolSchema)
    (hp : p ∈ TOOL_SCHEMAS) :
    ∀ r ∈ p.2.parameters.required, r ∈ p.2.parameters.properties.map Prod.fst := by
  have hp' : p = ("analyze_file", analyze_file_schema) ∨
      p = ("discover_files", discover_files_schema) := by
    simpa [TOOL_SCHEMAS] using hp
  rcases hp' with rfl | rfl <;> decide

/-- Witness for C9 at the `analyze_file` entry and its first required name. -/
theorem c9_witness :
    "file_path" ∈ analyze_file_schema.parameters.properties.map Prod.fst :=
  c9_required_subset_of_properties ("analyze_file", analyze_file_schema)
    (by decide) "file_path" (by decide)

/-- C8: the legacy route replies 200 on every input: the body is either a
single `answer` field (success) or a single `error` field (any internal
exception), never a non-200 status. -/
theorem c8_legacy_always_200 (env : Env) (data : JVal) :
    (mcp_query env data).1.status = 200 ∧
      ((∃ s, (mcp_query env data).1.body = [("answer", JVal.str s)]) ∨
       (∃ s, (mcp_query env data).1.body = [("error", JVal.str s)])) := by
  cases data with
  | obj d =>
    simp only [mcp_query]
    cases hc : call_ollama_api env.run env.loads
        (mkPrompt (read_file_content env.fs (jgetD d ("file_path") (JVal.str "")))
          (pyStr (jgetD d ("prompt") (JVal.str "")))) with
    | ok s => exact ⟨rfl, Or.inl ⟨s, rfl⟩⟩
    | error e => exact ⟨rfl, Or.inr ⟨_, rfl⟩⟩
  | null => exact ⟨rfl, Or.inr ⟨_, rfl⟩⟩
  | bool b => exact ⟨rfl, Or.inr ⟨_, rfl⟩⟩
  | num n => exact ⟨rfl, Or.inr ⟨_, rfl⟩⟩
  | str s => exact ⟨rfl, Or.inr ⟨_, rfl⟩⟩
  | arr l => exact ⟨rfl, Or.inr ⟨_, rfl⟩⟩

/-- C2: an unregistered tool name draws a 404 from both the generic route
and the MCP route, with no collaborator invocation (empty event trace); the
MCP 404 body also carries the `execution_id`. -/
theorem c2_unknown_tool_404 (env : Env) (eid eid2 name : String) (data argsv : JVal)
    (h : TOOL_SCHEMAS.lookup name = none) :
    execute_tool env name data =
      (⟨404, [("error", JVal.str ("Tool " ++ squo ++ name ++ squo ++ " not found"))]⟩, [])
    ∧ mcp_execute env eid eid2 (JVal.obj [("name", JVal.str name), ("arguments", argsv)]) =
      (⟨404, [("error", JVal.str ("Unknown tool: " ++ name)),
              ("execution_id", JVal.str eid)]⟩, []) := by
  have hn : (TOOL_SCHEMAS.lookup name).isNone = true := by rw [h]; rfl
  constructor
  · simp only [execute_tool, hn]
    simp
  · have hj1 : jget [("name", JVal.str name), ("arguments", argsv)] ("name")
        = JVal.str name := rfl
    simp only [mcp_execute, hj1, hn]
    simp

/-- Witness for C2 at the unregistered name `nope`. -/
theorem c2_witness :
    execute_tool env0 "nope" JVal.null =
      (⟨404, [("error", JVal.str ("Tool " ++ squo ++ "nope" ++ squo ++ " not found"))]⟩, [])
    ∧ mcp_execute env0 "E1" "E2" (JVal.obj [("name", JVal.str "nope"), ("arguments", JVal.null)]) =
      (⟨404, [("error", JVal.str ("Unknown tool: " ++ "nope")),
              ("execution_id", JVal.str "E1")]⟩, []) :=
  c2_unknown_tool_404 env0 "E1" "E2" "nope" JVal.null JVal.null rfl

/-- C1: a request for a registered tool in which some required parameter is
absent or bound to the empty string draws a 400 with an error body and an
empty collaborator trace from both the generic route and the MCP route (the
latter carrying the `execution_id`); the Scenario 3 request receives the
exact documented body. -/
theorem c1_missing_required_rejected (env : Env) (eid eid2 tool_name : String)
    (schema : ToolSchema) (d a : List (String × JVal))
    (hreg : TOOL_SCHEMAS.lookup tool_name = some schema) :
    ((∃ r, r ∈ schema.parameters.required ∧ missingOrEmpty d r) →
      execute_tool env tool_name (JVal.obj d) =
        (⟨400, [("error", JVal.str "Missing required parameters")]⟩, []))
    ∧ ((∃ r, r ∈ schema.parameters.required ∧ missingOrEmpty a r) →
      (∃ m, mcp_execute env eid eid2
          (JVal.obj [("name", JVal.str tool_name), ("arguments", JVal.obj a)]) =
        (⟨400, [("error", JVal.str m), ("execution_id", JVal.str eid)]⟩, [])))
    ∧ (mcp_execute env eid eid2 (JVal.obj [("name", JVal.str "analyze_file"),
          ("arguments", JVal.obj [("file_path", JVal.str "")])]) =
        (⟨400, [("error", JVal.str "Missing required parameters: file_path and query"),
                ("execution_id", JVal.str eid)]⟩, [])) := by
  rcases lookup_TOOL_SCHEMAS tool_name schema hreg with ⟨rfl, rfl⟩ | ⟨rfl, rfl⟩
  · refine ⟨?_, ?_, rfl⟩
    · rintro ⟨r, hr, hm⟩
      have hr' : r = "file_path" ∨ r = "query" := by
        simpa [analyze_file_schema] using hr
      have hf : (falsy (jget d ("file_path")) || falsy (jget d ("query"))) = true := by
        rcases hr' with rfl | rfl
        · rw [falsy_jget_of_missingOrEmpty d _ hm, Bool.true_or]
        · rw [falsy_jget_of_missingOrEmpty d _ hm, Bool.or_true]
      simp only [execute_tool,
        show (TOOL_SCHEMAS.lookup ("analyze_file")).isNone = false from rfl,
        show ("analyze_file" == "analyze_file") = true from rfl, hf]
      simp
    · rintro ⟨r, hr, hm⟩
      have hr' : r = "file_path" ∨ r = "query" := by
        simpa [analyze_file_schema] using hr
      have hf : (falsy (jget a ("file_path")) || falsy (jget a ("query"))) = true := by
        rcases hr' with rfl | rfl
        · rw [falsy_jget_of_missingOrEmpty a _ hm, Bool.true_or]
        · rw [falsy_jget_of_missingOrEmpty a _ hm, Bool.or_true]
      refine ⟨"Missing required parameters: file_path and query", ?_⟩
      simp only [mcp_execute,
        show jget [("name", JVal.str "analyze_file"), ("arguments", JVal.obj a)] ("name")
          = JVal.str "analyze_file" from rfl,
        show jgetD [("name", JVal.str "analyze_file"), ("arguments", JVal.obj a)]
            ("arguments") (JVal.obj []) = JVal.obj a from rfl,
        show (TOOL_SCHEMAS.lookup ("analyze_file")).isNone = false from rfl,
        show ("analyze_file" == "analyze_file") = true from rfl, hf]
      simp
  · refine ⟨?_, ?_, rfl⟩
    · rintro ⟨r, hr, hm⟩
      have hr' : r = "directory" ∨ r = "pattern" := by
        simpa [discover_files_schema] using hr
      have hf : (falsy (jget d ("directory")) || falsy (jget d ("pattern"))) = true := by
        rcases hr' with rfl | rfl
        · rw [falsy_jget_of_missingOrEmpty d _ hm, Bool.true_or]
        · rw [falsy_jget_of_missingOrEmpty d _ hm, Bool.or_true]
      simp only [execute_tool,
        show (TOOL_SCHEMAS.lookup ("discover_files")).isNone = false from rfl,
        show ("discover_files" == "analyze_file") = false from rfl,
        show ("discover_files" == "discover_files") = true from rfl, hf]
      simp
    · rintro ⟨r, hr, hm⟩
      have hr' : r = "directory" ∨ r = "pattern" := by
        simpa [discover_files_schema] using hr
      have hf : (falsy (jget a ("directory")) || falsy (jget a ("pattern"))) = true := by
        rcases hr' with rfl | rfl
        · rw [falsy_jget_of_missingOrEmpty a _ hm, Bool.true_or]
        · rw [falsy_jget_of_missingOrEmpty a _ hm, Bool.or_true]
      refine ⟨"Missing required parameters: directory and pattern", ?_⟩
      simp only [mcp_execute,
        show jget [("name", JVal.str "discover_files"), ("arguments", JVal.obj a)] ("name")
          = JVal.str "discover_files" from rfl,
        show jgetD [("name", JVal.str "discover_files"), ("arguments", JVal.obj a)]
            ("arguments") (JVal.obj []) = JVal.obj a from rfl,
        show (TOOL_SCHEMAS.lookup ("discover_files")).isNone = false from rfl,
        show ("discover_files" == "analyze_file") = false from rfl,
        show ("discover_files" == "discover_files") = true from rfl, hf]
      simp

/-- Witness for C1: the empty argument object for `analyze_file`. -/
theorem c1_witness :
    execute_tool env0 "analyze_file" (JVal.obj []) =
      (⟨400, [("error", JVal.str "Missing required parameters")]⟩, []) :=
  (c1_missing_required_rejected env0 "E1" "E2" "analyze_file" analyze_file_schema
      [] [] rfl).1 ⟨"file_path", by decide, Or.inl rfl⟩

/-- C5: when the file is unreadable the reader returns the diagnostic
string instead of raising, the prompt embedding the diagnostic and the
query still goes to the backend (see the event trace), and both entry
points answer 200 with the backend's answer as the payload. -/
theorem c5_unreadable_file_still_analyzed (env : Env) (eid eid2 p e q ans : String)
    (hp : p ≠ "") (hq : q ≠ "")
    (hfs : env.fs (JVal.str p) = Except.error e)
    (hback : call_ollama_api env.run env.loads
        (mkPrompt ("Failed to read file: " ++ e) q) = Except.ok ans) :
    read_file_content env.fs (JVal.str p) = "Failed to read file: " ++ e
    ∧ execute_tool env "analyze_file"
        (JVal.obj [("file_path", JVal.str p), ("query", JVal.str q)]) =
      (⟨200, [("result", JVal.str ans)]⟩,
       [Event.evRead (JVal.str p),
        Event.evOllama (mkPrompt ("Failed to read file: " ++ e) q)])
    ∧ mcp_execute env eid eid2 (JVal.obj [("name", JVal.str "analyze_file"),
        ("arguments", JVal.obj [("file_path", JVal.str p), ("query", JVal.str q)])]) =
      (⟨200, [("execution_id", JVal.str eid), ("result", JVal.str ans)]⟩,
       [Event.evRead (JVal.str p),
        Event.evOllama (mkPrompt ("Failed to read file: " ++ e) q)]) := by
  have hfb : falsy (JVal.str p) = false := beq_eq_false_iff_ne.mpr hp
  have hqb : falsy (JVal.str q) = false := beq_eq_false_iff_ne.mpr hq
  have hrd : read_file_content env.fs (JVal.str p) = "Failed to read file: " ++ e := by
    simp only [read_file_content, hfb, hfs]
    simp
  refine ⟨hrd, ?_, ?_⟩
  · simp only [execute_tool,
      show (TOOL_SCHEMAS.lookup ("analyze_file")).isNone = false from rfl,
      show ("analyze_file" == "analyze_file") = true from rfl,
      show jget [("file_path", JVal.str p), ("query", JVal.str q)] ("file_path")
        = JVal.str p from rfl,
      show jget [("file_path", JVal.str p), ("query", JVal.str q)] ("query")
        = JVal.str q from rfl,
      show pyStr (JVal.str q) = q from rfl,
      hfb, hqb, Bool.or_false, hrd, hback]
    simp
  · simp only [mcp_execute,
      show jget [("name", JVal.str "analyze_file"),
          ("arguments", JVal.obj [("file_path", JVal.str p), ("query", JVal.str q)])]
          ("name") = JVal.str "analyze_file" from rfl,
      show jgetD [("name", JVal.str "analyze_file"),
          ("arguments", JVal.obj [("file_path", JVal.str p), ("query", JVal.str q)])]
          ("arguments") (JVal.obj [])
        = JVal.obj [("file_path", JVal.str p), ("query", JVal.str q)] from rfl,
      show (TOOL_SCHEMAS.lookup ("analyze_file")).isNone = false from rfl,
      show ("analyze_file" == "analyze_file") = true from rfl,
      show jget [("file_path", JVal.str p), ("query", JVal.str q)] ("file_path")
        = JVal.str p from rfl,
      show jget [("file_path", JVal.str p), ("query", JVal.str q)] ("query")
        = JVal.str q from rfl,
      show pyStr (JVal.str q) = q from rfl,
      hfb, hqb, Bool.or_false, hrd, hback]
    simp

/-- Witness for C5: a missing file under the benign environment (whose
backend returns the empty completion). -/
theorem c5_witness :
    execute_tool env0 "analyze_file"
        (JVal.obj [("file_path", JVal.str "missing.txt"), ("query", JVal.str "summarize")]) =
      (⟨200, [("result", JVal.str "")]⟩,
       [Event.evRead (JVal.str "missing.txt"),
        Event.evOllama (mkPrompt
          ("Failed to read file: " ++ "[Errno 2] No such file or directory") "summarize")]) :=
  (c5_unreadable_file_still_analyzed env0 "E1" "E2" "missing.txt"
      "[Errno 2] No such file or directory" "summarize" ""
      (by decide) (by decide) rfl rfl).2.1

/-- C4: a successful `discover_files` execution computes the recursive
search path by joining the directory, a `**` segment and the pattern,
delegates to the glob collaborator (see the event trace), and the MCP route
resolves every match and adds a count while the generic route returns the
raw matches. -/
theorem c4_discover_files_shapes (env : Env) (eid eid2 dir pat : String)
    (files : List String) (hd : dir ≠ "") (hp : pat ≠ "")
    (hg : env.glob (searchPath dir pat) = Except.ok files) :
    mcp_execute env eid eid2 (JVal.obj [("name", JVal.str "discover_files"),
        ("arguments", JVal.obj [("directory", JVal.str dir), ("pattern", JVal.str pat)])]) =
      (⟨200, [("execution_id", JVal.str eid),
              ("result", JVal.obj
                [("files", JVal.arr ((files.map env.resolve).map JVal.str)),
                 ("count", JVal.num ((files.map env.resolve).length))])]⟩,
       [Event.evGlob (searchPath dir pat)])
    ∧ execute_tool env "discover_files"
        (JVal.obj [("directory", JVal.str dir), ("pattern", JVal.str pat)]) =
      (⟨200, [("files", JVal.arr (files.map JVal.str))]⟩,
       [Event.evGlob (searchPath dir pat)]) := by
  have hdb : falsy (JVal.str dir) = false := beq_eq_false_iff_ne.mpr hd
  have hpb : falsy (JVal.str pat) = false := beq_eq_false_iff_ne.mpr hp
  constructor
  · simp only [mcp_execute,
      show jget [("name", JVal.str "discover_files"),
          ("arguments", JVal.obj [("directory", JVal.str dir), ("pattern", JVal.str pat)])]
          ("name") = JVal.str "discover_files" from rfl,
      show jgetD [("name", JVal.str "discover_files"),
          ("arguments", JVal.obj [("directory", JVal.str dir), ("pattern", JVal.str pat)])]
          ("arguments") (JVal.obj [])
        = JVal.obj [("directory", JVal.str dir), ("pattern", JVal.str pat)] from rfl,
      show (TOOL_SCHEMAS.lookup ("discover_files")).isNone = false from rfl,
      show ("discover_files" == "analyze_file") = false from rfl,
      show ("discover_files" == "discover_files") = true from rfl,
      show jget [("directory", JVal.str dir), ("pattern", JVal.str pat)] ("directory")
        = JVal.str dir from rfl,
      show jget [("directory", JVal.str dir), ("pattern", JVal.str pat)] ("pattern")
        = JVal.str pat from rfl,
      hdb, hpb, Bool.or_false, hg]
    simp
  · simp only [execute_tool,
      show (TOOL_SCHEMAS.lookup ("discover_files")).isNone = false from rfl,
      show ("discover_files" == "analyze_file") = false from rfl,
      show ("discover_files" == "discover_files") = true from rfl,
      show jget [("directory", JVal.str dir), ("pattern", JVal.str pat)] ("directory")
        = JVal.str dir from rfl,
      show jget [("directory", JVal.str dir), ("pattern", JVal.str pat)] ("pattern")
        = JVal.str pat from rfl,
      hdb, hpb, Bool.or_false, hg]
    simp

/-- Witness for C4: an empty glob result under the benign environment. -/
theorem c4_witness :
    mcp_execute env0 "E1" "E2" (JVal.obj [("name", JVal.str "discover_files"),
        ("arguments", JVal.obj [("directory", JVal.str "/tmp/x"),
                                ("pattern", JVal.str "*.md")])]) =
      (⟨200, [("execution_id", JVal.str "E1"),
              ("result", JVal.obj
                [("files", JVal.arr ((([] : List String).map env0.resolve).map JVal.str)),
                 ("count", JVal.num ((([] : List String).map env0.resolve).length))])]⟩,
       [Event.evGlob (searchPath "/tmp/x" "*.md")]) :=
  (c4_discover_files_shapes env0 "E1" "E2" "/tmp/x" "*.md" []
      (by decide) (by decide) rfl).1

/-- C10: at both tool entry points a required parameter is treated as
missing exactly when its value is Python-falsy (so `0`, `false`, `[]` and
an empty object all trigger the 400, and only falsy values do), and an MCP
request without an `arguments` key is validated against the empty argument
object, yielding the same 400 rather than an exception. -/
theorem c10_falsy_is_missing (env : Env) (eid eid2 : String) (fpv qv dv pv : JVal) :
    ((execute_tool env "analyze_file"
        (JVal.obj [("file_path", fpv), ("query", qv)])).1.status = 400
      ↔ (falsy fpv || falsy qv) = true)
    ∧ ((execute_tool env "discover_files"
        (JVal.obj [("directory", dv), ("pattern", pv)])).1.status = 400
      ↔ (falsy dv || falsy pv) = true)
    ∧ ((mcp_execute env eid eid2 (JVal.obj [("name", JVal.str "analyze_file"),
          ("arguments", JVal.obj [("file_path", fpv), ("query", qv)])])).1.status = 400
      ↔ (falsy fpv || falsy qv) = true)
    ∧ ((mcp_execute env eid eid2 (JVal.obj [("name", JVal.str "discover_files"),
          ("arguments", JVal.obj [("directory", dv), ("pattern", pv)])])).1.status = 400
      ↔ (falsy dv || falsy pv) = true)
    ∧ (falsy (JVal.num 0) = true ∧ falsy (JVal.bool false) = true
       ∧ falsy (JVal.arr []) = true ∧ falsy (JVal.obj []) = true
       ∧ falsy JVal.null = true ∧ falsy (JVal.str "") = true)
    ∧ (∀ (tool_name : String) (schema : ToolSchema),
        TOOL_SCHEMAS.lookup tool_name = some schema →
        ∃ m, mcp_execute env eid eid2 (JVal.obj [("name", JVal.str tool_name)]) =
          (⟨400, [("error", JVal.str m), ("execution_id", JVal.str eid)]⟩, [])) := by
  refine ⟨?_, ?_, ?_, ?_, by decide, ?_⟩
  · simp only [execute_tool,
      show (TOOL_SCHEMAS.lookup ("analyze_file")).isNone = false from rfl,
      show ("analyze_file" == "analyze_file") = true from rfl,
      show jget [("file_path", fpv), ("query", qv)] ("file_path") = fpv from rfl,
      show jget [("file_path", fpv), ("query", qv)] ("query") = qv from rfl]
    cases hcond : (falsy fpv || falsy qv) with
    | true => simp
    | false =>
      rcases call_ollama_api env.run env.loads
          (mkPrompt (read_file_content env.fs fpv) (pyStr qv)) with s | e <;> simp
  · simp only [execute_tool,
      show (TOOL_SCHEMAS.lookup ("discover_files")).isNone = false from rfl,
      show ("discover_files" == "analyze_file") = false from rfl,
      show ("discover_files" == "discover_files") = true from rfl,
      show jget [("directory", dv), ("pattern", pv)] ("directory") = dv from rfl,
      show jget [("directory", dv), ("pattern", pv)] ("pattern") = pv from rfl]
    cases hcond : (falsy dv || falsy pv) with
    | true => simp
    | false =>
      rcases dv with _ | b1 | n1 | dir | l1 | o1 <;>
        rcases pv with _ | b2 | n2 | pat | l2 | o2 <;>
          first
            | (simp; done)
            | (cases hg : env.glob (searchPath dir pat) <;> simp [hg])
  · simp only [mcp_execute,
      show jget [("name", JVal.str "analyze_file"),
          ("arguments", JVal.obj [("file_path", fpv), ("query", qv)])] ("name")
        = JVal.str "analyze_file" from rfl,
      show jgetD [("name", JVal.str "analyze_file"),
          ("arguments", JVal.obj [("file_path", fpv), ("query", qv)])]
          ("arguments") (JVal.obj []) = JVal.obj [("file_path", fpv), ("query", qv)] from rfl,
      show (TOOL_SCHEMAS.lookup ("analyze_file")).isNone = false from rfl,
      show ("analyze_file" == "analyze_file") = true from rfl,
      show jget [("file_path", fpv), ("query", qv)] ("file_path") = fpv from rfl,
      show jget [("file_path", fpv), ("query", qv)] ("query") = qv from rfl]
    cases hcond : (falsy fpv || falsy qv) with
    | true => simp
    | false =>
      rcases call_ollama_api env.run env.loads
          (mkPrompt (read_file_content env.fs fpv) (pyStr qv)) with s | e <;> simp
  · simp only [mcp_execute,
      show jget [("name", JVal.str "discover_files"),
          ("arguments", JVal.obj [("directory", dv), ("pattern", pv)])] ("name")
        = JVal.str "discover_files" from rfl,
      show jgetD [("name", JVal.str "discover_files"),
          ("arguments", JVal.obj [("directory", dv), ("pattern", pv)])]
          ("arguments") (JVal.obj []) = JVal.obj [("directory", dv), ("pattern", pv)] from rfl,
      show (TOOL_SCHEMAS.lookup ("discover_files")).isNone = false from rfl,
      show ("discover_files" == "analyze_file") = false from rfl,
      show ("discover_files" == "discover_files") = true from rfl,
      show jget [("directory", dv), ("pattern", pv)] ("directory") = dv from rfl,
      show jget [("directory", dv), ("pattern", pv)] ("pattern") = pv from rfl]
    cases hcond : (falsy dv || falsy pv) with
    | true => simp
    | false =>
      rcases dv with _ | b1 | n1 | dir | l1 | o1 <;>
        rcases pv with _ | b2 | n2 | pat | l2 | o2 <;>
          first
            | (simp; done)
            | (cases hg : env.glob (searchPath dir pat) <;> simp [hg])
  · intro tool_name schema hreg
    rcases lookup_TOOL_SCHEMAS tool_name schema hreg with ⟨rfl, _⟩ | ⟨rfl, _⟩
    · exact ⟨"Missing required parameters: file_path and query", rfl⟩
    · exact ⟨"Missing required parameters: directory and pattern", rfl⟩

/-- Witness for C10: the number `0` as `file_path` draws the 400, and the
request without an `arguments` key draws the 400 for `analyze_file`. -/
theorem c10_witness :
    (execute_tool env0 "analyze_file"
        (JVal.obj [("file_path", JVal.num 0), ("query", JVal.str "q")])).1.status = 400
    ∧ ∃ m, mcp_execute env0 "E1" "E2" (JVal.obj [("name", JVal.str "analyze_file")]) =
        (⟨400, [("error", JVal.str m), ("execution_id", JVal.str "E1")]⟩, []) :=
  ⟨((c10_falsy_is_missing env0 "E1" "E2" (JVal.num 0) (JVal.str "q")
      JVal.null JVal.null).1).mpr (by decide),
   (c10_falsy_is_missing env0 "E1" "E2" (JVal.num 0) (JVal.str "q")
      JVal.null JVal.null).2.2.2.2.2 "analyze_file" analyze_file_schema rfl⟩

/-- Counterexample for C3: a request whose handling raises after the
execution id `ID-A` was generated at the start is answered with a 500 whose
`execution_id` is the freshly drawn `ID-B`, not `ID-A`. -/
theorem c3_counterexample :
    (mcp_execute envBad "ID-A" "ID-B" dataBad).1.status = 500
    ∧ (mcp_execute envBad "ID-A" "ID-B" dataBad).1.body.lookup ("execution_id")
        = some (JVal.str "ID-B")
    ∧ "ID-B" ≠ "ID-A" :=
  ⟨rfl, rfl, by decide⟩

/-- C3 (amended): every `/mcp/execute` response carries an `execution_id`,
and the outcomes map to ids as follows: the 200 success (both tools), the
404 unknown-tool, the 400 missing-parameter and the glob-failure 500
responses carry the single id generated at the start of handling, while
every response built by the top-level exception handler — non-object body,
non-object arguments, an unhashable (list or dict) tool name, or a backend
TypeError during `analyze_file` — is a 500 carrying a freshly generated id
instead.  (Ids are `uuid.uuid4()` draws, modelled as the parameters `eid`
and `eid2`; cross-request uniqueness is the generator's property, outside
this model.) -/
theorem c3_execution_id_attached_amended (env : Env) (eid eid2 : String) :
    (∀ data : JVal,
      (mcp_execute env eid eid2 data).1.body.lookup ("execution_id")
          = some (JVal.str eid)
      ∨ ((mcp_execute env eid eid2 data).1.status = 500
         ∧ (mcp_execute env eid eid2 data).1.body.lookup ("execution_id")
             = some (JVal.str eid2)))
    ∧ (∀ (tool_name : String) (argsv : JVal),
        TOOL_SCHEMAS.lookup tool_name = none →
        mcp_execute env eid eid2
            (JVal.obj [("name", JVal.str tool_name), ("arguments", argsv)]) =
          (⟨404, [("error", JVal.str ("Unknown tool: " ++ tool_name)),
                  ("execution_id", JVal.str eid)]⟩, []))
    ∧ (∀ (tool_name : String) (schema : ToolSchema) (a : List (String × JVal)),
        TOOL_SCHEMAS.lookup tool_name = some schema →
        (∃ r, r ∈ schema.parameters.required ∧ missingOrEmpty a r) →
        ∃ m, mcp_execute env eid eid2
            (JVal.obj [("name", JVal.str tool_name), ("arguments", JVal.obj a)]) =
          (⟨400, [("error", JVal.str m), ("execution_id", JVal.str eid)]⟩, []))
    ∧ (∀ (fpv qv : JVal) (ans : String), falsy fpv = false → falsy qv = false →
        call_ollama_api env.run env.loads
            (mkPrompt (read_file_content env.fs fpv) (pyStr qv)) = Except.ok ans →
        mcp_execute env eid eid2 (JVal.obj [("name", JVal.str "analyze_file"),
            ("arguments", JVal.obj [("file_path", fpv), ("query", qv)])]) =
          (⟨200, [("execution_id", JVal.str eid), ("result", JVal.str ans)]⟩,
           [Event.evRead fpv,
            Event.evOllama (mkPrompt (read_file_content env.fs fpv) (pyStr qv))]))
    ∧ (∀ (fpv qv : JVal) (e : String), falsy fpv = false → falsy qv = false →
        call_ollama_api env.run env.loads
            (mkPrompt (read_file_content env.fs fpv) (pyStr qv)) = Except.error e →
        mcp_execute env eid eid2 (JVal.obj [("name", JVal.str "analyze_file"),
            ("arguments", JVal.obj [("file_path", fpv), ("query", qv)])]) =
          (⟨500, [("error", JVal.str ("Exception processing request: " ++ e)),
                  ("execution_id", JVal.str eid2)]⟩,
           [Event.evRead fpv,
            Event.evOllama (mkPrompt (read_file_content env.fs fpv) (pyStr qv))]))
    ∧ (∀ (dir pat : String) (files : List String), dir ≠ "" → pat ≠ "" →
        env.glob (searchPath dir pat) = Except.ok files →
        mcp_execute env eid eid2 (JVal.obj [("name", JVal.str "discover_files"),
            ("arguments", JVal.obj [("directory", JVal.str dir),
                                    ("pattern", JVal.str pat)])]) =
          (⟨200, [("execution_id", JVal.str eid),
                  ("result", JVal.obj
                    [("files", JVal.arr ((files.map env.resolve).map JVal.str)),
                     ("count", JVal.num ((files.map env.resolve).length))])]⟩,
           [Event.evGlob (searchPath dir pat)]))
    ∧ (∀ (dir pat e : String), dir ≠ "" → pat ≠ "" →
        env.glob (searchPath dir pat) = Except.error e →
        mcp_execute env eid eid2 (JVal.obj [("name", JVal.str "discover_files"),
            ("arguments", JVal.obj [("directory", JVal.str dir),
                                    ("pattern", JVal.str pat)])]) =
          (⟨500, [("error", JVal.str ("Error discovering files: " ++ e)),
                  ("execution_id", JVal.str eid)]⟩,
           [Event.evGlob (searchPath dir pat)]))
    ∧ (∀ data : JVal, (∀ d, data ≠ JVal.obj d) →
        mcp_execute env eid eid2 data =
          (⟨500, [("error", JVal.str ("Exception processing request: "
                    ++ noGetMsg data)),
                  ("execution_id", JVal.str eid2)]⟩, []))
    ∧ (∀ (tool_name : String) (schema : ToolSchema) (v : JVal),
        TOOL_SCHEMAS.lookup tool_name = some schema → (∀ a, v ≠ JVal.obj a) →
        mcp_execute env eid eid2
            (JVal.obj [("name", JVal.str tool_name), ("arguments", v)]) =
          (⟨500, [("error", JVal.str ("Exception processing request: "
                    ++ noGetMsg v)),
                  ("execution_id", JVal.str eid2)]⟩, []))
    ∧ (∀ (l : List JVal) (argsv : JVal),
        mcp_execute env eid eid2
            (JVal.obj [("name", JVal.arr l), ("arguments", argsv)]) =
          (⟨500, [("error", JVal.str ("Exception processing request: "
                    ++ unhashableMsg (JVal.arr l))),
                  ("execution_id", JVal.str eid2)]⟩, []))
    ∧ (∀ (o : List (String × JVal)) (argsv : JVal),
        mcp_execute env eid eid2
            (JVal.obj [("name", JVal.obj o), ("arguments", argsv)]) =
          (⟨500, [("error", JVal.str ("Exception processing request: "
                    ++ unhashableMsg (JVal.obj o))),
                  ("execution_id", JVal.str eid2)]⟩, [])) := by
  refine ⟨?_, ?_, ?_, ?_, ?_, ?_, ?_, ?_, ?_, ?_, ?_⟩
  · intro data
    cases data with
    | null => exact Or.inr ⟨rfl, rfl⟩
    | bool b => exact Or.inr ⟨rfl, rfl⟩
    | num n => exact Or.inr ⟨rfl, rfl⟩
    | str s => exact Or.inr ⟨rfl, rfl⟩
    | arr l => exact Or.inr ⟨rfl, rfl⟩
    | obj d =>
      simp only [mcp_execute]
      split
      · rename_i tool_name heq
        split
        · exact Or.inl rfl
        · rename_i hreg
          rcases registered_cases tool_name (by rwa [Bool.not_eq_true] at hreg)
            with rfl | rfl
          · split
            · split
              · split
                · exact Or.inl rfl
                · split
                  · exact Or.inl rfl
                  · exact Or.inr ⟨rfl, rfl⟩
              · exact Or.inr ⟨rfl, rfl⟩
            · rename_i hcontra
              exact absurd rfl hcontra
          · split
            · rename_i hcontra
              exact absurd hcontra (by decide)
            · split
              · split
                · split
                  · exact Or.inl rfl
                  · split
                    · split
                      · exact Or.inl rfl
                      · exact Or.inl rfl
                    · exact Or.inl rfl
                · exact Or.inr ⟨rfl, rfl⟩
              · rename_i hcontra
                exact absurd rfl hcontra
      · exact Or.inr ⟨rfl, rfl⟩
      · exact Or.inr ⟨rfl, rfl⟩
      · exact Or.inl rfl
  · intro tool_name argsv h
    have hn : (TOOL_SCHEMAS.lookup tool_name).isNone = true := by rw [h]; rfl
    have hj1 : jget [("name", JVal.str tool_name), ("arguments", argsv)] ("name")
        = JVal.str tool_name := rfl
    simp only [mcp_execute, hj1, hn]
    simp
  · intro tool_name schema a hreg hmiss
    rcases lookup_TOOL_SCHEMAS tool_name schema hreg with ⟨rfl, rfl⟩ | ⟨rfl, rfl⟩
    · rcases hmiss with ⟨r, hr, hm⟩
      have hr' : r = "file_path" ∨ r = "query" := by
        simpa [analyze_file_schema] using hr
      have hf : (falsy (jget a ("file_path")) || falsy (jget a ("query"))) = true := by
        rcases hr' with rfl | rfl
        · rw [falsy_jget_of_missingOrEmpty a _ hm, Bool.true_or]
        · rw [falsy_jget_of_missingOrEmpty a _ hm, Bool.or_true]
      refine ⟨"Missing required parameters: file_path and query", ?_⟩
      simp only [mcp_execute,
        show jget [("name", JVal.str "analyze_file"), ("arguments", JVal.obj a)] ("name")
          = JVal.str "analyze_file" from rfl,
        show jgetD [("name", JVal.str "analyze_file"), ("arguments", JVal.obj a)]
            ("arguments") (JVal.obj []) = JVal.obj a from rfl,
        show (TOOL_SCHEMAS.lookup ("analyze_file")).isNone = false from rfl,
        show ("analyze_file" == "analyze_file") = true from rfl, hf]
      simp
    · rcases hmiss with ⟨r, hr, hm⟩
      have hr' : r = "directory" ∨ r = "pattern" := by
        simpa [discover_files_schema] using hr
      have hf : (falsy (jget a ("directory")) || falsy (jget a ("pattern"))) = true := by
        rcases hr' with rfl | rfl
        · rw [falsy_jget_of_missingOrEmpty a _ hm, Bool.true_or]
        · rw [falsy_jget_of_missingOrEmpty a _ hm, Bool.or_true]
      refine ⟨"Missing required parameters: directory and pattern", ?_⟩
      simp only [mcp_execute,
        show jget [("name", JVal.str "discover_files"), ("arguments", JVal.obj a)] ("name")
          = JVal.str "discover_files" from rfl,
        show jgetD [("name", JVal.str "discover_files"), ("arguments", JVal.obj a)]
            ("arguments") (JVal.obj []) = JVal.obj a from rfl,
        show (TOOL_SCHEMAS.lookup ("discover_files")).isNone = false from rfl,
        show ("discover_files" == "analyze_file") = false from rfl,
        show ("discover_files" == "discover_files") = true from rfl, hf]
      simp
  · intro fpv qv ans hfp hq hcall
    simp only [mcp_execute,
      show jget [("name", JVal.str "analyze_file"),
          ("arguments", JVal.obj [("file_path", fpv), ("query", qv)])] ("name")
        = JVal.str "analyze_file" from rfl,
      show jgetD [("name", JVal.str "analyze_file"),
          ("arguments", JVal.obj [("file_path", fpv), ("query", qv)])]
          ("arguments") (JVal.obj [])
        = JVal.obj [("file_path", fpv), ("query", qv)] from rfl,
      show (TOOL_SCHEMAS.lookup ("analyze_file")).isNone = false from rfl,
      show ("analyze_file" == "analyze_file") = true from rfl,
      show jget [("file_path", fpv), ("query", qv)] ("file_path") = fpv from rfl,
      show jget [("file_path", fpv), ("query", qv)] ("query") = qv from rfl,
      hfp, hq, Bool.or_false, hcall]
    simp
  · intro fpv qv e hfp hq hcall
    simp only [mcp_execute,
      show jget [("name", JVal.str "analyze_file"),
          ("arguments", JVal.obj [("file_path", fpv), ("query", qv)])] ("name")
        = JVal.str "analyze_file" from rfl,
      show jgetD [("name", JVal.str "analyze_file"),
          ("arguments", JVal.obj [("file_path", fpv), ("query", qv)])]
          ("arguments") (JVal.obj [])
        = JVal.obj [("file_path", fpv), ("query", qv)] from rfl,
      show (TOOL_SCHEMAS.lookup ("analyze_file")).isNone = false from rfl,
      show ("analyze_file" == "analyze_file") = true from rfl,
      show jget [("file_path", fpv), ("query", qv)] ("file_path") = fpv from rfl,
      show jget [("file_path", fpv), ("query", qv)] ("query") = qv from rfl,
      hfp, hq, Bool.or_false, hcall]
    simp
  · intro dir pat files hd hp hg
    have hdb : falsy (JVal.str dir) = false := beq_eq_false_iff_ne.mpr hd
    have hpb : falsy (JVal.str pat) = false := beq_eq_false_iff_ne.mpr hp
    simp only [mcp_execute,
      show jget [("name", JVal.str "discover_files"),
          ("arguments", JVal.obj [("directory", JVal.str dir), ("pattern", JVal.str pat)])]
          ("name") = JVal.str "discover_files" from rfl,
      show jgetD [("name", JVal.str "discover_files"),
          ("arguments", JVal.obj [("directory", JVal.str dir), ("pattern", JVal.str pat)])]
          ("arguments") (JVal.obj [])
        = JVal.obj [("directory", JVal.str dir), ("pattern", JVal.str pat)] from rfl,
      show (TOOL_SCHEMAS.lookup ("discover_files")).isNone = false from rfl,
      show ("discover_files" == "analyze_file") = false from rfl,
      show ("discover_files" == "discover_files") = true from rfl,
      show jget [("directory", JVal.str dir), ("pattern", JVal.str pat)] ("directory")
        = JVal.str dir from rfl,
      show jget [("directory", JVal.str dir), ("pattern", JVal.str pat)] ("pattern")
        = JVal.str pat from rfl,
      hdb, hpb, Bool.or_false, hg]
    simp
  · intro dir pat e hd hp hg
    have hdb : falsy (JVal.str dir) = false := beq_eq_false_iff_ne.mpr hd
    have hpb : falsy (JVal.str pat) = false := beq_eq_false_iff_ne.mpr hp
    simp only [mcp_execute,
      show jget [("name", JVal.str "discover_files"),
          ("arguments", JVal.obj [("directory", JVal.str dir), ("pattern", JVal.str pat)])]
          ("name") = JVal.str "discover_files" from rfl,
      show jgetD [("name", JVal.str "discover_files"),
          ("arguments", JVal.obj [("directory", JVal.str dir), ("pattern", JVal.str pat)])]
          ("arguments") (JVal.obj [])
        = JVal.obj [("directory", JVal.str dir), ("pattern", JVal.str pat)] from rfl,
      show (TOOL_SCHEMAS.lookup ("discover_files")).isNone = false from rfl,
      show ("discover_files" == "analyze_file") = false from rfl,
      show ("discover_files" == "discover_files") = true from rfl,
      show jget [("directory", JVal.str dir), ("pattern", JVal.str pat)] ("directory")
        = JVal.str dir from rfl,
      show jget [("directory", JVal.str dir), ("pattern", JVal.str pat)] ("pattern")
        = JVal.str pat from rfl,
      hdb, hpb, Bool.or_false, hg]
    simp
  · intro data hne
    cases data with
    | null => rfl
    | bool b => rfl
    | num n => rfl
    | str s => rfl
    | arr l => rfl
    | obj d => exact absurd rfl (hne d)
  · intro tool_name schema v hreg hv
    rcases lookup_TOOL_SCHEMAS tool_name schema hreg with ⟨rfl, _⟩ | ⟨rfl, _⟩
    · cases v with
      | null => rfl
      | bool b => rfl
      | num n => rfl
      | str s => rfl
      | arr l => rfl
      | obj a => exact absurd rfl (hv a)
    · cases v with
      | null => rfl
      | bool b => rfl
      | num n => rfl
      | str s => rfl
      | arr l => rfl
      | obj a => exact absurd rfl (hv a)
  · intro l argsv
    rfl
  · intro o argsv
    rfl

/-- Witness for C3 (amended): a glob failure under `envGlobErr` draws the
inner-handler 500 that carries the start-of-handling id `E1`, not the
exception-handler id `E2`. -/
theorem c3_witness :
    mcp_execute envGlobErr "E1" "E2" (JVal.obj [("name", JVal.str "discover_files"),
        ("arguments", JVal.obj [("directory", JVal.str "/d"),
                                ("pattern", JVal.str "*.md")])]) =
      (⟨500, [("error", JVal.str ("Error discovering files: " ++ "glob boom")),
              ("execution_id", JVal.str "E1")]⟩,
       [Event.evGlob (searchPath "/d" "*.md")]) :=
  (c3_execution_id_attached_amended envGlobErr "E1" "E2").2.2.2.2.2.2.1
    "/d" "*.md" "glob boom" (by decide) (by decide) rfl

/-- Over well-shaped lines the collection loop is a pure fold that never
raises. -/
theorem collectResponses_ok (loads : String → Option JVal) (lines : List String)
    (acc : String) (h : ∀ line ∈ lines, lineOk loads line) :
    collectResponses loads lines acc
      = Except.ok (lines.foldl (fun a l => a ++ respOf loads l) acc) := by
  induction lines generalizing acc with
  | nil => rfl
  | cons line rest ih =>
    have h1 : lineOk loads line := h line (by simp)
    have h2 : ∀ l ∈ rest, lineOk loads l := fun l hl => h l (by simp [hl])
    simp only [collectResponses, List.foldl_cons]
    cases hl : loads line with
    | none =>
      have hr : respOf loads line = "" := by simp [respOf, hl]
      rw [hr]
      simpa using ih (acc ++ "") h2
    | some v =>
      simp only [lineOk, hl] at h1
      cases v with
      | obj l =>
        cases hres : l.lookup ("response") with
        | none =>
          have hr : respOf loads line = "" := by simp [respOf, hl, hres]
          simp only [lineValue, hres, hr]
          simpa using ih (acc ++ "") h2
        | some w =>
          cases w with
          | str s =>
            have hr : respOf loads line = s := by simp [respOf, hl, hres]
            simp only [lineValue, hres, hr]
            exact ih (acc ++ s) h2
          | null => simp [hres] at h1
          | bool b => simp [hres] at h1
          | num n => simp [hres] at h1
          | arr l2 => simp [hres] at h1
          | obj l2 => simp [hres] at h1
      | null => exact absurd h1 (by simp)
      | bool b => exact absurd h1 (by simp)
      | num n => exact absurd h1 (by simp)
      | str s => exact absurd h1 (by simp)
      | arr l2 => exact absurd h1 (by simp)

/-- C6 (amended): `call_ollama_api` returns the descriptive failure string
on nonzero exit; on exit 0 it returns, without raising, the concatenation
of the `response` fields of the stripped stdout lines, provided every line
either fails to parse (it is skipped) or parses to an object whose
`response` field, if present, is a string — the shape Ollama emits.  A
parseable line of any other shape makes the loop raise a TypeError (see the
counterexample), which the routes convert to an error response. -/
theorem c6_backend_contract_amended (run : String → SubprocResult)
    (loads : String → Option JVal) (prompt : String) :
    ((run prompt).returncode ≠ 0 →
      call_ollama_api run loads prompt
        = Except.ok ("Failed to call Ollama API: " ++ (run prompt).stderr))
    ∧ ((run prompt).returncode = 0 →
      (∀ line ∈ (splitNl (pyStrip (run prompt).stdout).data).map String.mk,
          lineOk loads line) →
      call_ollama_api run loads prompt
        = Except.ok (((splitNl (pyStrip (run prompt).stdout).data).map String.mk).foldl
            (fun a l => a ++ respOf loads l) "")) := by
  constructor
  · intro h
    have hb : ((run prompt).returncode != 0) = true := by simpa using h
    simp only [call_ollama_api, hb]
    simp
  · intro h hlines
    have hb : ((run prompt).returncode != 0) = false := by simp [h]
    simp only [call_ollama_api, hb]
    rw [if_neg (show ¬(false = true) from by decide)]
    exact collectResponses_ok loads _ "" hlines

/-- Witness for C6 (amended): the benign environment's backend exits 0 with
empty stdout, whose single empty line is unparseable, so the answer is the
empty concatenation. -/
theorem c6_witness : call_ollama_api env0.run env0.loads "p" = Except.ok "" :=
  (c6_backend_contract_amended env0.run env0.loads "p").2 rfl
    (by
      intro line hl
      rw [show (splitNl (pyStrip (env0.run "p").stdout).data).map String.mk
        = [""] from rfl] at hl
      simp at hl
      subst hl
      trivial)

/-- Counterexample for C6: with stdout consisting of the parseable line
`badLine` (whose `response` field is the number 0), the loop raises a
TypeError instead of returning a string. -/
theorem c6_counterexample :
    call_ollama_api envBad.run envBad.loads "p"
      = Except.error (concatTypeErrMsg (JVal.num 0)) := rfl

/-- List-level core of the frontmatter strip: a well-formed leading block
(opening `---` line, `---`-free content, closing `---` line) is removed
down to the body. -/
theorem strip_list_wellformed (cl bl : List Char)
    (hcT : hasTriple cl = false)
    (hbl : ∀ ch, bl.head? = some ch → isWs ch = false) :
    stripFrontmatter (String.mk ('-' :: '-' :: '-' :: '\n'
      :: (cl ++ '\n' :: '-' :: '-' :: '-' :: '\n' :: bl))) = String.mk bl := by
  have hW : hasTriple ((cl ++ ['\n']).dropWhile isWs ++ ['-', '-']) = false := by
    have h1 : hasTriple (cl ++ ['\n', '-', '-']) = false := hasTriple_append_closer cl hcT
    obtain ⟨u, hu⟩ := List.dropWhile_suffix (l := cl ++ ['\n']) isWs
    refine hasTriple_suffix _ _ ⟨u, ?_⟩ h1
    rw [← List.append_assoc, hu]
    simp
  have e2 : ((('-' :: '-' :: '-' :: '\n'
      :: (cl ++ '\n' :: '-' :: '-' :: '-' :: '\n' :: bl)).drop 3).dropWhile isWs)
      = (cl ++ '\n' :: '-' :: '-' :: '-' :: '\n' :: bl).dropWhile isWs := rfl
  have e2' : cl ++ '\n' :: '-' :: '-' :: '-' :: '\n' :: bl
      = (cl ++ ['\n']) ++ '-' :: '-' :: '-' :: ('\n' :: bl) := by simp
  have hsp : splitTriple ((('-' :: '-' :: '-' :: '\n'
      :: (cl ++ '\n' :: '-' :: '-' :: '-' :: '\n' :: bl)).drop 3).dropWhile isWs)
      = some ('\n' :: bl) := by
    rw [e2, e2', dropWhile_append_dash]
    exact splitTriple_append _ _ hW
  have hst : startsTriple (String.mk ('-' :: '-' :: '-' :: '\n'
      :: (cl ++ '\n' :: '-' :: '-' :: '-' :: '\n' :: bl))).data = true := rfl
  simp only [stripFrontmatter, hst, if_pos]
  rw [hsp]
  show String.mk (('\n' :: bl).dropWhile isWs) = String.mk bl
  rw [show ('\n' :: bl).dropWhile isWs = bl.dropWhile isWs from rfl,
    dropWhile_isWs_eq_self bl hbl]

/-- Counterexample for C7: `---a---b` has no frontmatter block made of
`---` lines of their own, yet the reader does not return it unchanged — the
regex happily matches the inline hyphen runs and strips down to `b`. -/
theorem c7_counterexample :
    read_file_content fsC7 (JVal.str "f.md") = "b" ∧ "b" ≠ "---a---b" :=
  ⟨rfl, by decide⟩

/-- C7 (amended): on a readable file the reader returns the text with the
regex-stripped prefix removed, where the strip fires whenever the text
begins with `---` and contains a later `---` (the delimiters need not stand
on lines of their own): a well-formed leading frontmatter block (opening
`---` line, `---`-free content, closing `---` line, body not starting with
whitespace) is stripped down to the body, text not beginning with `---` is
unchanged, and text with no second `---` is unchanged. -/
theorem c7_frontmatter_strip_amended (fs : JVal → Except String String)
    (p content : String) (hp : p ≠ "")
    (hc : fs (JVal.str p) = Except.ok content) :
    read_file_content fs (JVal.str p) = stripFrontmatter content
    ∧ (∀ c body : String, hasTriple c.data = false →
        (∀ ch, body.data.head? = some ch → isWs ch = false) →
        stripFrontmatter ("---\n" ++ c ++ "\n---\n" ++ body) = body)
    ∧ (∀ s : String, startsTriple s.data = false → stripFrontmatter s = s)
    ∧ (∀ s : String, hasTriple (s.data.drop 3) = false → stripFrontmatter s = s) := by
  have hfb : falsy (JVal.str p) = false := beq_eq_false_iff_ne.mpr hp
  refine ⟨?_, ?_, ?_, ?_⟩
  · simp only [read_file_content, hfb, hc]
    simp
  · intro c body hcT hbody
    have hdata : ("---\n" ++ c ++ "\n---\n" ++ body).data
        = '-' :: '-' :: '-' :: '\n' :: (c.data ++ '\n' :: '-' :: '-' :: '-' :: '\n' :: body.data) := by
      simp [String.data_append]
    calc stripFrontmatter ("---\n" ++ c ++ "\n---\n" ++ body)
        = stripFrontmatter (String.mk (("---\n" ++ c ++ "\n---\n" ++ body).data)) := rfl
      _ = stripFrontmatter (String.mk ('-' :: '-' :: '-' :: '\n'
            :: (c.data ++ '\n' :: '-' :: '-' :: '-' :: '\n' :: body.data))) := by rw [hdata]
      _ = String.mk body.data := strip_list_wellformed c.data body.data hcT hbody
      _ = body := rfl
  · intro s hs
    simp only [stripFrontmatter, hs]
    simp
  · intro s h
    by_cases hs : startsTriple s.data = true
    · have h2 : hasTriple ((s.data.drop 3).dropWhile isWs) = false := by
        refine hasTriple_suffix _ _ ?_ h
        exact List.dropWhile_suffix isWs
      have h3 : splitTriple ((s.data.drop 3).dropWhile isWs) = none :=
        splitTriple_none _ h2
      simp only [stripFrontmatter, hs, h3]
      simp
    · have hs' : startsTriple s.data = false := by rwa [Bool.not_eq_true] at hs
      simp only [stripFrontmatter, hs']
      simp

/-- Witness for C7 (amended): a conventional frontmatter document is
stripped down to its body. -/
theorem c7_witness :
    read_file_content fsC7w (JVal.str "n.md")
      = stripFrontmatter "---\ntitle: x\n---\nbody"
    ∧ stripFrontmatter ("---\n" ++ "title: x" ++ "\n---\n" ++ "body") = "body" :=
  ⟨(c7_frontmatter_strip_amended fsC7w "n.md" "---\ntitle: x\n---\nbody"
      (by decide) rfl).1,
   (c7_frontmatter_strip_amended fsC7w "n.md" "---\ntitle: x\n---\nbody"
      (by decide) rfl).2.1 "title: x" "body" (by decide)
      (by
        intro ch hch
        injection hch with h2
        subst h2
        decide)⟩
